import Mathlib

/-!
Verification of the Discord bootstrap script (`src/botstrap.py`).

The script is a single linear driver: it discovers roles, channels and
categories of a guild through REST calls, reconciles them against an expected
schema, creates missing objects, and serializes the resulting id mapping to a
`.env.server` file.  The embedding below models the observable behaviour of
one run: the REST calls issued (as a trace), the key/value pairs accumulated
per section, the file writes, and the uncaught error, as a function of the
server's responses.
-/

namespace Botstrap

/-- Python `dict[str, str]`: an insertion-ordered association list. -/
abbrev Dict := List (String × String)

/-- Python dict assignment `d[k] = v`: update an existing key in place,
otherwise append the new binding at the end. -/
def dinsert : Dict → String → String → Dict
  | [], k, v => [(k, v)]
  | (k', v') :: rest, k, v =>
    if k' = k then (k, v) :: rest else (k', v') :: dinsert rest k v

/-! ## Name normalization (lines 108 and 129-132)

`"_".join(part.lower() for part in name.split(" ")).replace("-", "_")`,
modelled at the character level.  `str.lower` is modelled for basic latin
letters via `Char.toLower`. -/

/-- Python `name.split(" ")`: split at every single space, keeping empty parts. -/
def splitOnSpace : List Char → List (List Char)
  | [] => [[]]
  | c :: cs =>
    if c = ' ' then [] :: splitOnSpace cs
    else
      match splitOnSpace cs with
      | [] => [[c]]
      | p :: ps => (c :: p) :: ps

/-- Python `"_".join(parts)`. -/
def joinUnderscore : List (List Char) → List Char
  | [] => []
  | [p] => p
  | p :: ps => p ++ '_' :: joinUnderscore ps

/-- Python `s.replace("-", "_")`: a single-character replace is a character map. -/
def replaceDashes (l : List Char) : List Char :=
  l.map (fun c => if c = '-' then '_' else c)

/-- The full normalization pipeline applied to a raw role or channel name. -/
def normalizeChars (l : List Char) : List Char :=
  replaceDashes (joinUnderscore ((splitOnSpace l).map (fun p => p.map Char.toLower)))

/-- String-level wrapper for `normalizeChars`. -/
def normalizeName (s : String) : String := String.mk (normalizeChars s.data)

/-- Python `PYTHON_HELP_NAME.replace("_", "-")` (line 190). -/
def underscoresToDashes (s : String) : String :=
  String.mk (s.data.map (fun c => if c = '_' then '-' else c))

/-- `re.match(r"ot\d{1}(_.*)+", name)` (lines 119 and 130): the match (anchored
at the start only) succeeds exactly when the name starts with `ot`, one digit,
then an underscore. -/
def isOffTopicName (s : String) : Bool :=
  match s.data with
  | 'o' :: 't' :: d :: '_' :: _ => d.isDigit
  | _ => false

/-! ## Constants (lines 18-20) -/

def COMMUNITY_FEATURE : String := "COMMUNITY"

def GUILD_FORUM_TYPE : Nat := 15

/-- `_Channels.__fields__["python_help"].name` (line 19): the name of a pydantic
field is its key, so this is the literal `"python_help"`; the attribute access
also forces `"python_help"` to be one of the expected channel fields. -/
def PYTHON_HELP_NAME : String := "python_help"

/-! ## The observed server -/

/-- A role object as returned by `GET /guilds/{id}/roles`. -/
structure RawRole where
  name : String
  id : String
deriving DecidableEq

/-- A channel object as returned by `GET /guilds/{id}/channels`;
`type = 4` is a category. -/
structure RawChannel where
  name : String
  type : Nat
  id : String
deriving DecidableEq

/-- The Discord server as observed through the REST API during one run:
the listing responses, the guild's feature list, the `type` returned by
`GET /channels/{id}`, and the HTTP status of `GET /webhooks/{id}`. -/
structure ServerState where
  roles : List RawRole
  channels : List RawChannel
  features : List String
  channelTypeOf : String → Nat
  webhookGetStatus : Nat → Nat

/-- `Response.raise_for_status` (lines 50-52): a 2xx response succeeds,
any other status raises `HTTPStatusError` carrying the status. -/
def raiseForStatus (status : Nat) : Except Nat Unit :=
  if 200 ≤ status ∧ status < 300 then Except.ok () else Except.error status

/-! ## Discovery functions -/

/-- `get_all_roles` (lines 100-111). -/
def get_all_roles (S : ServerState) : Dict :=
  S.roles.foldl (fun res r => dinsert res (normalizeName r.name) r.id) []

/-- The display name assigned to each listed channel by the loop of
`get_all_channels_and_categories`, including the `off_topic_<k>` renumbering,
in listing order; `count` is the running off-topic counter. -/
def assignedNames : List RawChannel → Nat → List String
  | [], _ => []
  | c :: rest, count =>
    let name := normalizeName c.name
    if isOffTopicName name then
      ("off_topic_" ++ toString count) :: assignedNames rest (count + 1)
    else
      name :: assignedNames rest count

/-- Partition already-named channels into the (channels, categories) dicts. -/
def buildDicts : List (String × RawChannel) → Dict → Dict → Dict × Dict
  | [], chans, cats => (chans, cats)
  | (n, c) :: rest, chans, cats =>
    if c.type = 4 then buildDicts rest chans (dinsert cats n c.id)
    else buildDicts rest (dinsert chans n c.id) cats

/-- The loop of `get_all_channels_and_categories` (lines 127-137): normalize,
renumber off-topic names, and partition by channel type. -/
def channelsLoop : List RawChannel → Nat → Dict → Dict → Dict × Dict
  | [], _, chans, cats => (chans, cats)
  | c :: rest, count, chans, cats =>
    let name0 := normalizeName c.name
    let p := if isOffTopicName name0 then ("off_topic_" ++ toString count, count + 1)
             else (name0, count)
    if c.type = 4 then channelsLoop rest p.2 chans (dinsert cats p.1 c.id)
    else channelsLoop rest p.2 (dinsert chans p.1 c.id) cats

/-- `get_all_channels_and_categories` (lines 114-139). -/
def get_all_channels_and_categories (S : ServerState) : Dict × Dict :=
  channelsLoop S.channels 0 [] []

/-- `webhook_exists` (lines 142-148): `GET webhooks/{id}` inside
`try: ... return True / except HTTPStatusError: return False`. -/
def webhook_exists (S : ServerState) (webhookId : Nat) : Bool :=
  match raiseForStatus (S.webhookGetStatus webhookId) with
  | Except.ok _ => true
  | Except.error _ => false

/-- `is_community_server` (lines 55-58). -/
def is_community_server (S : ServerState) : Bool :=
  S.features.contains COMMUNITY_FEATURE

/-! ## The driver (lines 160-233) -/

/-- One REST call issued by the driver, with the arguments that identify it. -/
inductive ApiCall where
  | getRoles
  | getChannels
  | getGuild
  | patchGuildCommunity
  | getChannel (channelId : String)
  | deleteChannel (channelId : String)
  | createForumChannel (channelName : String)
  | getWebhook (webhookId : Nat)
  | createWebhook (webhookName : String) (channelId : Int)
deriving DecidableEq

/-- Identifiers the API assigns to objects created during the run
(the `"id"` field of the creation responses). -/
structure Fresh where
  forumChannelId : String
  webhookId : String → String

/-- The expected schema imported from `bot.constants` (line 8): the declared
field names of `_Roles`, `_Channels`, `_Categories`, and the `Webhooks`
name-to-prior-id mapping.  A read-only external input. -/
structure BotConfig where
  roleFields : List String
  channelFields : List String
  categoryFields : List String
  webhooks : List (String × Nat)

/-- The three emit loops (lines 165-172, 192-200, 205-213): for each expected
name look up its discovered id; `if not <id>` (missing, or a falsy empty
string) logs a warning and omits the pair, and the loop continues. -/
def emitLoop : List String → Dict → List (String × String) × List String
  | [], _ => ([], [])
  | n :: rest, d =>
    let r := emitLoop rest d
    match d.lookup n with
    | none => (r.1, n :: r.2)
    | some v => if v = "" then (r.1, n :: r.2) else ((n, v) :: r.1, r.2)

/-- Render a section's pairs as `<sect><name>=<id>\n` lines. -/
def renderLines (sect : String) (ps : List (String × String)) : List String :=
  ps.map (fun q => sect ++ q.1 ++ "=" ++ q.2 ++ "\n")

/-- Lines 178-179: `GET` the guild, and `PATCH` it to community if needed
(fire and forget). -/
def communityCalls (S : ServerState) : List ApiCall :=
  if is_community_server S then [ApiCall.getGuild]
  else [ApiCall.getGuild, ApiCall.patchGuildCommunity]

/-- Lines 181-190: resolve the python-help channel.  If present, check its
type via `GET /channels/{id}`; a non-forum channel is deleted and a new forum
channel named `python-help` is created; if absent, only the creation happens.
Returns the resolved channel id and the calls issued. -/
def resolveHelpChannel (S : ServerState) (allChannels : Dict) (fr : Fresh) :
    String × List ApiCall :=
  match allChannels.lookup PYTHON_HELP_NAME with
  | some cid =>
    if S.channelTypeOf cid = GUILD_FORUM_TYPE then
      (cid, [ApiCall.getChannel cid])
    else
      (fr.forumChannelId,
        [ApiCall.getChannel cid, ApiCall.deleteChannel cid,
         ApiCall.createForumChannel (underscoresToDashes PYTHON_HELP_NAME)])
  | none =>
    (fr.forumChannelId,
      [ApiCall.createForumChannel (underscoresToDashes PYTHON_HELP_NAME)])

/-- Digit-list accumulator for `pyInt?`. -/
def digitsToNatAux : List Char → Nat → Option Nat
  | [], acc => some acc
  | c :: cs, acc =>
    if c.isDigit then digitsToNatAux cs (acc * 10 + (c.toNat - 48)) else none

/-- A non-empty all-digit list read as a natural number. -/
def digitsToNat? : List Char → Option Nat
  | [] => none
  | ds => digitsToNatAux ds 0

/-- Python `int(s)` (line 222), modelled for the decimal-literal grammar
`[-]digits`: `none` means `int` raises `ValueError`. -/
def pyInt? (s : String) : Option Int :=
  match s.data with
  | '-' :: ds => (digitsToNat? ds).map (fun n => -(n : Int))
  | ds => (digitsToNat? ds).map (fun n => (n : Int))

/-- Outcome of the webhook loop: the emitted lines and the calls issued,
or an uncaught exception (with the calls issued up to that point). -/
inductive WebhookRes where
  | ok (lines : List String) (calls : List ApiCall)
  | err (msg : String) (calls : List ApiCall)
deriving DecidableEq

/-- The calls issued by the webhook loop, error or not. -/
def WebhookRes.callList : WebhookRes → List ApiCall
  | .ok _ cs => cs
  | .err _ cs => cs

/-- The webhook loop (lines 219-227).  For each (name, prior id): check
existence; when absent, `all_channels[webhook_name]` (a `KeyError` if the
name was never discovered) is converted with `int` and a webhook is created
under it; the id line uses the prior or fresh id; the channel line again
looks up `all_channels[webhook_name]` unconditionally. -/
def webhookLoop (S : ServerState) (allChannels : Dict) (fr : Fresh) :
    List (String × Nat) → WebhookRes
  | [] => .ok [] []
  | (name, priorId) :: rest =>
    if webhook_exists S priorId then
      match allChannels.lookup name with
      | none => .err ("KeyError: " ++ name) [ApiCall.getWebhook priorId]
      | some chan =>
        let line1 := "webhooks_" ++ name ++ "__id=" ++ toString priorId ++ "\n"
        let line2 := "webhooks_" ++ name ++ "__channel=" ++ chan ++ "\n"
        match webhookLoop S allChannels fr rest with
        | .ok ls cs => .ok (line1 :: line2 :: ls) (ApiCall.getWebhook priorId :: cs)
        | .err m cs => .err m (ApiCall.getWebhook priorId :: cs)
    else
      match allChannels.lookup name with
      | none => .err ("KeyError: " ++ name) [ApiCall.getWebhook priorId]
      | some chan =>
        match pyInt? chan with
        | none =>
          .err ("ValueError: invalid literal for int: " ++ chan)
            [ApiCall.getWebhook priorId]
        | some chanInt =>
          let line1 := "webhooks_" ++ name ++ "__id=" ++ fr.webhookId name ++ "\n"
          let line2 := "webhooks_" ++ name ++ "__channel=" ++ chan ++ "\n"
          match webhookLoop S allChannels fr rest with
          | .ok ls cs =>
            .ok (line1 :: line2 :: ls)
              (ApiCall.getWebhook priorId :: ApiCall.createWebhook name chanInt :: cs)
          | .err m cs =>
            .err m (ApiCall.getWebhook priorId :: ApiCall.createWebhook name chanInt :: cs)

/-- The observable outcome of one run of the driver. -/
structure RunResult where
  rolePairs : List (String × String)
  roleWarnings : List String
  channelPairs : List (String × String)
  channelWarnings : List String
  categoryPairs : List (String × String)
  categoryWarnings : List String
  webhookLines : List String
  writes : List String
  output : String
  calls : List ApiCall
  err : Option String

/-- The discovered channels dict (first component of line 174's call). -/
def discoveredChannels (S : ServerState) : Dict :=
  (get_all_channels_and_categories S).1

/-- The discovered categories dict (second component of line 174's call). -/
def discoveredCategories (S : ServerState) : Dict :=
  (get_all_channels_and_categories S).2

/-- The help-channel resolution as performed by the driver. -/
def helpResolution (S : ServerState) (fr : Fresh) : String × List ApiCall :=
  resolveHelpChannel S (discoveredChannels S) fr

/-- The pairs emitted by the roles loop (lines 165-172). -/
def rolePairsOf (cfg : BotConfig) (S : ServerState) : List (String × String) :=
  (emitLoop cfg.roleFields (get_all_roles S)).1

/-- The role names warned about by the roles loop. -/
def roleWarningsOf (cfg : BotConfig) (S : ServerState) : List String :=
  (emitLoop cfg.roleFields (get_all_roles S)).2

/-- The pairs of the channels section: the loop of lines 192-200 followed by
the unconditional append of the resolved help channel id (line 201). -/
def channelPairsOf (cfg : BotConfig) (S : ServerState) (fr : Fresh) :
    List (String × String) :=
  (emitLoop cfg.channelFields (discoveredChannels S)).1
    ++ [(PYTHON_HELP_NAME, (helpResolution S fr).1)]

/-- The channel names warned about by the channels loop. -/
def channelWarningsOf (cfg : BotConfig) (S : ServerState) : List String :=
  (emitLoop cfg.channelFields (discoveredChannels S)).2

/-- The pairs emitted by the categories loop (lines 205-213). -/
def categoryPairsOf (cfg : BotConfig) (S : ServerState) : List (String × String) :=
  (emitLoop cfg.categoryFields (discoveredCategories S)).1

/-- The category names warned about by the categories loop. -/
def categoryWarningsOf (cfg : BotConfig) (S : ServerState) : List String :=
  (emitLoop cfg.categoryFields (discoveredCategories S)).2

/-- The content of the checkpoint write (line 215): the roles, channels and
categories sections only. -/
def firstWriteOf (cfg : BotConfig) (S : ServerState) (fr : Fresh) : String :=
  "#Roles\n" ++ String.join (renderLines "roles_" (rolePairsOf cfg S))
    ++ "\n#Channels\n" ++ String.join (renderLines "channels_" (channelPairsOf cfg S fr))
    ++ "\n#Categories\n" ++ String.join (renderLines "categories_" (categoryPairsOf cfg S))

/-- The calls issued before the webhook loop, in program order:
roles listing (163), channels listing (174), community check and optional
upgrade (178-179), help-channel resolution (181-190). -/
def baseCallsOf (S : ServerState) (fr : Fresh) : List ApiCall :=
  ApiCall.getRoles :: ApiCall.getChannels ::
    (communityCalls S ++ (helpResolution S fr).2)

/-- The static emoji section (lines 229-230). -/
def emojiSection : String := "\n#Emojis\nemojis_trashcan=🗑️"

/-- One full run of the driver (lines 160-233).  The checkpoint write happens
before the webhook loop; an uncaught exception in the webhook loop terminates
the run with only that first write on disk. -/
def run (cfg : BotConfig) (S : ServerState) (fr : Fresh) : RunResult :=
  match webhookLoop S (discoveredChannels S) fr cfg.webhooks with
  | .ok wl wc =>
    let w1 := firstWriteOf cfg S fr
    let w2 := w1 ++ "\n#Webhooks\n" ++ String.join wl ++ emojiSection
    { rolePairs := rolePairsOf cfg S, roleWarnings := roleWarningsOf cfg S,
      channelPairs := channelPairsOf cfg S fr,
      channelWarnings := channelWarningsOf cfg S,
      categoryPairs := categoryPairsOf cfg S,
      categoryWarnings := categoryWarningsOf cfg S,
      webhookLines := wl, writes := [w1, w2], output := w2,
      calls := baseCallsOf S fr ++ wc, err := none }
  | .err m wc =>
    let w1 := firstWriteOf cfg S fr
    { rolePairs := rolePairsOf cfg S, roleWarnings := roleWarningsOf cfg S,
      channelPairs := channelPairsOf cfg S fr,
      channelWarnings := channelWarningsOf cfg S,
      categoryPairs := categoryPairsOf cfg S,
      categoryWarnings := categoryWarningsOf cfg S,
      webhookLines := [], writes := [w1], output := w1,
      calls := baseCallsOf S fr ++ wc, err := some m }

/-! ## Helper lemmas about the normalization pipeline -/

theorem splitOnSpace_ne_nil (l : List Char) : splitOnSpace l ≠ [] := by
  cases l with
  | nil => simp [splitOnSpace]
  | cons c cs =>
    simp only [splitOnSpace]
    split
    · simp
    · split <;> simp

theorem joinUnderscore_cons_cons (p : List Char) (q : List Char) (ps : List (List Char)) :
    joinUnderscore (p :: q :: ps) = p ++ '_' :: joinUnderscore (q :: ps) := rfl

theorem joinUnderscore_head_cons (c : Char) (p : List Char) (ps : List (List Char)) :
    joinUnderscore ((c :: p) :: ps) = c :: joinUnderscore (p :: ps) := by
  cases ps with
  | nil => rfl
  | cons q qs => simp [joinUnderscore_cons_cons]

theorem splitOnSpace_cons_space (cs : List Char) :
    splitOnSpace (' ' :: cs) = [] :: splitOnSpace cs := by
  simp [splitOnSpace]

theorem splitOnSpace_cons_of_ne (c : Char) (cs : List Char) (h : c ≠ ' ')
    (p : List Char) (ps : List (List Char)) (hr : splitOnSpace cs = p :: ps) :
    splitOnSpace (c :: cs) = (c :: p) :: ps := by
  simp [splitOnSpace, h, hr]

theorem charToNat_ofNat_valid (n : Nat) (h : n.isValidChar) :
    (Char.ofNat n).toNat = n := by
  simp [Char.ofNat, dif_pos h, Char.ofNatAux, Char.toNat, UInt32.toNat]

theorem toLower_ne_dash {c : Char} (hc : c ≠ '-') : c.toLower ≠ '-' := by
  have hlow : c.toLower
      = if c.toNat ≥ 65 ∧ c.toNat ≤ 90 then Char.ofNat (c.toNat + 32) else c := rfl
  rw [hlow]
  by_cases h65 : c.toNat ≥ 65 ∧ c.toNat ≤ 90
  · rw [if_pos h65]
    intro heq
    have hv : Nat.isValidChar (c.toNat + 32) := Or.inl (by omega)
    have h2 := congrArg Char.toNat heq
    rw [charToNat_ofNat_valid _ hv] at h2
    have h3 : Char.toNat '-' = 45 := by decide
    omega
  · rw [if_neg h65]
    exact hc

theorem normalizeChars_cons_space (cs : List Char) :
    normalizeChars (' ' :: cs) = '_' :: normalizeChars cs := by
  obtain ⟨p, ps, hr⟩ := List.exists_cons_of_ne_nil (splitOnSpace_ne_nil cs)
  rw [normalizeChars, splitOnSpace_cons_space, hr, List.map_cons, List.map_cons,
    List.map_nil, joinUnderscore_cons_cons, List.nil_append]
  rw [normalizeChars, hr, List.map_cons]
  simp [replaceDashes]

theorem normalizeChars_cons_of_ne (c : Char) (cs : List Char) (h : c ≠ ' ') :
    normalizeChars (c :: cs)
      = (if c.toLower = '-' then '_' else c.toLower) :: normalizeChars cs := by
  obtain ⟨p, ps, hr⟩ := List.exists_cons_of_ne_nil (splitOnSpace_ne_nil cs)
  rw [normalizeChars, splitOnSpace_cons_of_ne c cs h p ps hr, List.map_cons,
    List.map_cons, joinUnderscore_head_cons]
  rw [normalizeChars, hr, List.map_cons]
  simp [replaceDashes]

/-- The split/lower/join/replace pipeline acts independently on each
character: spaces and hyphens become underscores, letters are lowercased. -/
theorem normalizeChars_eq_map (l : List Char) :
    normalizeChars l
      = l.map (fun c => if c = ' ' ∨ c = '-' then '_' else c.toLower) := by
  induction l with
  | nil => rfl
  | cons c cs ih =>
    by_cases hsp : c = ' '
    · subst hsp
      rw [normalizeChars_cons_space, ih]
      simp
    · rw [normalizeChars_cons_of_ne c cs hsp, ih, List.map_cons]
      by_cases hd : c = '-'
      · subst hd
        rw [if_pos (by decide : Char.toLower '-' = '-')]
        simp
      · rw [if_neg (toLower_ne_dash hd)]
        simp [hsp, hd]

/-! ## Helper lemmas about the channel listing loop -/

theorem assignedNames_length (l : List RawChannel) (count : Nat) :
    (assignedNames l count).length = l.length := by
  induction l generalizing count with
  | nil => rfl
  | cons c rest ih =>
    simp only [assignedNames]
    split <;> simp [ih]

theorem assignedNames_off_topic (l : List RawChannel) (count i : Nat)
    (ch : RawChannel) (hget : l.get? i = some ch)
    (hot : isOffTopicName (normalizeName ch.name) = true) :
    (assignedNames l count).get? i
      = some ("off_topic_" ++ toString
          (count + (l.take i).countP (fun c => isOffTopicName (normalizeName c.name)))) := by
  induction l generalizing count i with
  | nil => simp at hget
  | cons c rest ih =>
    cases i with
    | zero =>
      rw [List.get?_cons_zero] at hget
      obtain rfl : c = ch := by injection hget
      simp [assignedNames, hot]
    | succ j =>
      rw [List.get?_cons_succ] at hget
      by_cases hc : isOffTopicName (normalizeName c.name) = true
      · have he : assignedNames (c :: rest) count
            = ("off_topic_" ++ toString count) :: assignedNames rest (count + 1) := by
          simp [assignedNames, hc]
        rw [he, List.get?_cons_succ, ih (count + 1) j hget,
          List.take_succ_cons, List.countP_cons]
        simp only [hc, if_true]
        congr 3
        omega
      · have hc' : isOffTopicName (normalizeName c.name) = false := by
          simpa using hc
        have he : assignedNames (c :: rest) count
            = normalizeName c.name :: assignedNames rest count := by
          simp [assignedNames, hc']
        rw [he, List.get?_cons_succ, ih count j hget,
          List.take_succ_cons, List.countP_cons]
        simp [hc']

theorem channelsLoop_eq_buildDicts (l : List RawChannel) (count : Nat)
    (chans cats : Dict) :
    channelsLoop l count chans cats
      = buildDicts ((assignedNames l count).zip l) chans cats := by
  induction l generalizing count chans cats with
  | nil => rfl
  | cons c rest ih =>
    simp only [channelsLoop, assignedNames]
    by_cases hot : isOffTopicName (normalizeName c.name) = true
    · simp only [if_pos hot, List.zip_cons_cons, buildDicts]
      by_cases ht : c.type = 4 <;> simp [ht, ih]
    · simp only [if_neg hot, List.zip_cons_cons, buildDicts]
      by_cases ht : c.type = 4 <;> simp [ht, ih]

/-! ## Helper lemmas about the driver -/

/-- Calls that delete a channel or create a forum channel: these are issued
only by the help-channel resolution. -/
def isDeleteOrCreateForum : ApiCall → Bool
  | .deleteChannel _ => true
  | .createForumChannel _ => true
  | _ => false

/-- Calls that create a webhook. -/
def isCreateWebhook : ApiCall → Bool
  | .createWebhook _ _ => true
  | _ => false

/-- Calls that mutate the server (everything except the read-only GETs). -/
def isMutatingCall : ApiCall → Bool
  | .patchGuildCommunity => true
  | .deleteChannel _ => true
  | .createForumChannel _ => true
  | .createWebhook _ _ => true
  | _ => false

/-- Every call issued by the webhook loop is a webhook GET or a webhook
creation. -/
theorem webhookLoop_calls_shape (S : ServerState) (m : Dict) (fr : Fresh)
    (ws : List (String × Nat)) :
    ∀ call ∈ (webhookLoop S m fr ws).callList,
      (∃ i, call = ApiCall.getWebhook i) ∨ ∃ n ci, call = ApiCall.createWebhook n ci := by
  induction ws with
  | nil =>
    intro call h
    simp [webhookLoop, WebhookRes.callList] at h
  | cons w rest ih =>
    obtain ⟨name, priorId⟩ := w
    intro call hcall
    by_cases hex : webhook_exists S priorId = true
    · cases hl : m.lookup name with
      | none =>
        simp only [webhookLoop, hex, if_true, hl, WebhookRes.callList,
          List.mem_singleton] at hcall
        exact Or.inl ⟨priorId, hcall⟩
      | some chan =>
        cases hrec : webhookLoop S m fr rest with
        | ok ls cs =>
          simp only [webhookLoop, hex, if_true, hl, hrec, WebhookRes.callList,
            List.mem_cons] at hcall
          rcases hcall with rfl | hcall
          · exact Or.inl ⟨priorId, rfl⟩
          · have := ih call (by rw [hrec]; exact hcall)
            exact this
        | err msg cs =>
          simp only [webhookLoop, hex, if_true, hl, hrec, WebhookRes.callList,
            List.mem_cons] at hcall
          rcases hcall with rfl | hcall
          · exact Or.inl ⟨priorId, rfl⟩
          · exact ih call (by rw [hrec]; exact hcall)
    · have hex' : webhook_exists S priorId = false := by simpa using hex
      cases hl : m.lookup name with
      | none =>
        simp only [webhookLoop, hex', Bool.false_eq_true, if_false, hl,
          WebhookRes.callList, List.mem_singleton] at hcall
        exact Or.inl ⟨priorId, hcall⟩
      | some chan =>
        cases hti : pyInt? chan with
        | none =>
          simp only [webhookLoop, hex', Bool.false_eq_true, if_false, hl, hti,
            WebhookRes.callList, List.mem_singleton] at hcall
          exact Or.inl ⟨priorId, hcall⟩
        | some ci =>
          cases hrec : webhookLoop S m fr rest with
          | ok ls cs =>
            simp only [webhookLoop, hex', Bool.false_eq_true, if_false, hl, hti, hrec,
              WebhookRes.callList, List.mem_cons] at hcall
            rcases hcall with rfl | rfl | hcall
            · exact Or.inl ⟨priorId, rfl⟩
            · exact Or.inr ⟨name, ci, rfl⟩
            · exact ih call (by rw [hrec]; exact hcall)
          | err msg cs =>
            simp only [webhookLoop, hex', Bool.false_eq_true, if_false, hl, hti, hrec,
              WebhookRes.callList, List.mem_cons] at hcall
            rcases hcall with rfl | rfl | hcall
            · exact Or.inl ⟨priorId, rfl⟩
            · exact Or.inr ⟨name, ci, rfl⟩
            · exact ih call (by rw [hrec]; exact hcall)

/-- The webhook loop never deletes channels or creates forum channels. -/
theorem webhookLoop_no_channel_mutation (S : ServerState) (m : Dict) (fr : Fresh)
    (ws : List (String × Nat)) :
    ((webhookLoop S m fr ws).callList).filter isDeleteOrCreateForum = [] := by
  rw [List.filter_eq_nil_iff]
  intro call hcall
  rcases webhookLoop_calls_shape S m fr ws call hcall with ⟨i, rfl⟩ | ⟨n, ci, rfl⟩ <;>
    simp [isDeleteOrCreateForum]

/-- The sections and the call trace of a run, independent of whether the
webhook loop succeeds. -/
theorem run_sections (cfg : BotConfig) (S : ServerState) (fr : Fresh) :
    (run cfg S fr).rolePairs = rolePairsOf cfg S ∧
    (run cfg S fr).roleWarnings = roleWarningsOf cfg S ∧
    (run cfg S fr).channelPairs = channelPairsOf cfg S fr ∧
    (run cfg S fr).channelWarnings = channelWarningsOf cfg S ∧
    (run cfg S fr).categoryPairs = categoryPairsOf cfg S ∧
    (run cfg S fr).categoryWarnings = categoryWarningsOf cfg S ∧
    (run cfg S fr).calls
      = baseCallsOf S fr ++ (webhookLoop S (discoveredChannels S) fr cfg.webhooks).callList := by
  unfold run
  cases h : webhookLoop S (discoveredChannels S) fr cfg.webhooks <;>
    simp [WebhookRes.callList]

/-! ## Claim theorems -/

/-- A server whose webhook endpoint answers HTTP 500 — an internal server
error, not a "not found" — for every webhook id. -/
def serverError500 : ServerState :=
  { roles := [], channels := [], features := [],
    channelTypeOf := fun _ => 0, webhookGetStatus := fun _ => 500 }

/-- C1 counterexample: the claim says that an HTTP failure other than
"not found" propagates as an error instead of being converted to `false`.
On the code, `webhook_exists` catches every `HTTPStatusError`: a 500
response (which `raise_for_status` turns into an error, and which is not a
404) is swallowed and reported as `false`. -/
theorem claim_C1_counterexample :
    serverError500.webhookGetStatus 7 = 500 ∧
    raiseForStatus (serverError500.webhookGetStatus 7) = Except.error 500 ∧
    (500 : Nat) ≠ 404 ∧
    webhook_exists serverError500 7 = false :=
  ⟨rfl, rfl, by decide, by decide⟩

/-- C1 amended: for the webhook-existence check, a successful (2xx) GET of
the webhook id returns `true`, and **any** HTTP status failure — "not found"
or otherwise — returns `false`; no HTTP status failure propagates to the
caller. -/
theorem claim_C1_webhook_exists (S : ServerState) (wid : Nat) :
    (webhook_exists S wid = true ↔
      200 ≤ S.webhookGetStatus wid ∧ S.webhookGetStatus wid < 300) ∧
    (webhook_exists S wid = false ↔
      ¬(200 ≤ S.webhookGetStatus wid ∧ S.webhookGetStatus wid < 300)) := by
  by_cases h : 200 ≤ S.webhookGetStatus wid ∧ S.webhookGetStatus wid < 300 <;>
    simp [webhook_exists, raiseForStatus, h]

/-- The channel-mutating calls of a run are exactly those of the
help-channel resolution. -/
theorem run_filter_channel_mutation (cfg : BotConfig) (S : ServerState) (fr : Fresh) :
    ((run cfg S fr).calls).filter isDeleteOrCreateForum
      = ((helpResolution S fr).2).filter isDeleteOrCreateForum := by
  rw [(run_sections cfg S fr).2.2.2.2.2.2, List.filter_append,
    webhookLoop_no_channel_mutation, List.append_nil]
  unfold baseCallsOf communityCalls
  by_cases hc : is_community_server S = true <;>
    simp [hc, List.filter_append, List.filter_cons, isDeleteOrCreateForum]

/-- The created help channel's name: `PYTHON_HELP_NAME.replace("_", "-")`. -/
theorem helpChannelName_eq : underscoresToDashes PYTHON_HELP_NAME = "python-help" := by
  decide

/-- C2: when the designated python-help channel name resolves, exactly one of
three paths executes.  If it is discovered and already a forum channel, its id
is reused and the whole run issues no channel delete and no forum-channel
creation; if it is discovered with a non-forum type, the run issues exactly
one delete followed by exactly one forum-channel creation, in that order; if
it is absent, the run issues exactly one forum-channel creation and no
delete. -/
theorem claim_C2_help_channel_paths (cfg : BotConfig) (S : ServerState) (fr : Fresh) :
    (∀ cid, (discoveredChannels S).lookup PYTHON_HELP_NAME = some cid →
      S.channelTypeOf cid = GUILD_FORUM_TYPE →
        (helpResolution S fr).1 = cid ∧
        ((run cfg S fr).calls).filter isDeleteOrCreateForum = []) ∧
    (∀ cid, (discoveredChannels S).lookup PYTHON_HELP_NAME = some cid →
      S.channelTypeOf cid ≠ GUILD_FORUM_TYPE →
        (helpResolution S fr).1 = fr.forumChannelId ∧
        ((run cfg S fr).calls).filter isDeleteOrCreateForum
          = [ApiCall.deleteChannel cid, ApiCall.createForumChannel "python-help"]) ∧
    ((discoveredChannels S).lookup PYTHON_HELP_NAME = none →
        (helpResolution S fr).1 = fr.forumChannelId ∧
        ((run cfg S fr).calls).filter isDeleteOrCreateForum
          = [ApiCall.createForumChannel "python-help"]) := by
  refine ⟨?_, ?_, ?_⟩
  · intro cid hlook hforum
    have hh : helpResolution S fr = (cid, [ApiCall.getChannel cid]) := by
      simp [helpResolution, resolveHelpChannel, hlook, hforum]
    rw [run_filter_channel_mutation, hh]
    simp [List.filter_cons, isDeleteOrCreateForum]
  · intro cid hlook hforum
    have hh : helpResolution S fr
        = (fr.forumChannelId,
           [ApiCall.getChannel cid, ApiCall.deleteChannel cid,
            ApiCall.createForumChannel (underscoresToDashes PYTHON_HELP_NAME)]) := by
      simp [helpResolution, resolveHelpChannel, hlook, hforum]
    rw [run_filter_channel_mutation, hh, helpChannelName_eq]
    simp [List.filter_cons, isDeleteOrCreateForum]
  · intro hlook
    have hh : helpResolution S fr
        = (fr.forumChannelId,
           [ApiCall.createForumChannel (underscoresToDashes PYTHON_HELP_NAME)]) := by
      simp [helpResolution, resolveHelpChannel, hlook]
    rw [run_filter_channel_mutation, hh, helpChannelName_eq]
    simp [List.filter_cons, isDeleteOrCreateForum]

/-- A server on which the python-help channel exists but is a plain text
channel (type 0), so the driver must delete and re-create it. -/
def serverWrongTypeHelp : ServerState :=
  { roles := [], channels := [⟨"python-help", 0, "42"⟩],
    features := ["COMMUNITY"], channelTypeOf := fun _ => 0,
    webhookGetStatus := fun _ => 200 }

/-- An expected schema whose only expected channel is the python-help one. -/
def cfgHelpOnly : BotConfig := ⟨[], ["python_help"], [], []⟩

/-- Fresh ids used by the concrete runs. -/
def freshIds : Fresh := ⟨"99", fun _ => "77"⟩

/-- C2 witness: on the concrete wrong-type server the run deletes the old
channel and then creates the forum channel, in that order and nothing else. -/
theorem claim_C2_witness :
    ((run cfgHelpOnly serverWrongTypeHelp freshIds).calls).filter isDeleteOrCreateForum
      = [ApiCall.deleteChannel "42", ApiCall.createForumChannel "python-help"] :=
  ((claim_C2_help_channel_paths cfgHelpOnly serverWrongTypeHelp freshIds).2.1
    "42" (by decide) (by decide)).2

/-- If some expected webhook's name was never discovered as a channel, the
webhook loop raises an uncaught `KeyError` (or stops at an earlier uncaught
exception). -/
theorem webhookLoop_missing_channel (S : ServerState) (m : Dict) (fr : Fresh)
    (ws : List (String × Nat)) (h : ∃ p ∈ ws, m.lookup p.1 = none) :
    ∃ msg cs, webhookLoop S m fr ws = WebhookRes.err msg cs := by
  induction ws with
  | nil => simp at h
  | cons q rest ih =>
    obtain ⟨name, priorId⟩ := q
    rcases h with ⟨p, hp, hlp⟩
    by_cases hex : webhook_exists S priorId = true
    · cases hl : m.lookup name with
      | none =>
        exact ⟨"KeyError: " ++ name, [ApiCall.getWebhook priorId],
          by simp [webhookLoop, hex, hl]⟩
      | some chan =>
        rcases List.mem_cons.mp hp with rfl | hp'
        · rw [hl] at hlp; cases hlp
        · obtain ⟨msg, cs, hrec⟩ := ih ⟨p, hp', hlp⟩
          exact ⟨msg, ApiCall.getWebhook priorId :: cs,
            by simp [webhookLoop, hex, hl, hrec]⟩
    · have hex' : webhook_exists S priorId = false := by simpa using hex
      cases hl : m.lookup name with
      | none =>
        exact ⟨"KeyError: " ++ name, [ApiCall.getWebhook priorId],
          by simp [webhookLoop, hex', hl]⟩
      | some chan =>
        have hp' : p ∈ rest := by
          rcases List.mem_cons.mp hp with rfl | hp''
          · rw [hl] at hlp; cases hlp
          · exact hp''
        cases hti : pyInt? chan with
        | none =>
          exact ⟨"ValueError: invalid literal for int: " ++ chan,
            [ApiCall.getWebhook priorId], by simp [webhookLoop, hex', hl, hti]⟩
        | some ci =>
          obtain ⟨msg, cs, hrec⟩ := ih ⟨p, hp', hlp⟩
          exact ⟨msg, ApiCall.getWebhook priorId :: ApiCall.createWebhook name ci :: cs,
            by simp [webhookLoop, hex', hl, hti, hrec]⟩

/-- C10: if an expected webhook's name is absent from the discovered channel
map, the run terminates with an uncaught error during the webhook phase —
whether or not the webhook itself exists — and only the checkpoint write
reaches the file. -/
theorem claim_C10_missing_webhook_channel (cfg : BotConfig) (S : ServerState)
    (fr : Fresh)
    (h : ∃ p ∈ cfg.webhooks, (discoveredChannels S).lookup p.1 = none) :
    ((run cfg S fr).err).isSome = true ∧
    (run cfg S fr).writes = [firstWriteOf cfg S fr] ∧
    (run cfg S fr).output = firstWriteOf cfg S fr := by
  obtain ⟨msg, cs, hwl⟩ :=
    webhookLoop_missing_channel S (discoveredChannels S) fr cfg.webhooks h
  unfold run
  rw [hwl]
  simp

/-- A server with no channels at all but a webhook GET that succeeds:
the prior webhook id is alive even though its channel was never discovered. -/
def serverNoChannels : ServerState :=
  { roles := [], channels := [], features := ["COMMUNITY"],
    channelTypeOf := fun _ => 0, webhookGetStatus := fun _ => 200 }

/-- An expected schema with a single webhook named `logs`. -/
def cfgLogsWebhook : BotConfig := ⟨[], [], [], [("logs", 7)]⟩

/-- C10 witness: the concrete run dies in the webhook phase (its webhook
exists, but the `logs` channel was never discovered) and writes only once. -/
theorem claim_C10_witness :
    ((run cfgLogsWebhook serverNoChannels freshIds).err).isSome = true ∧
    (run cfgLogsWebhook serverNoChannels freshIds).writes
      = [firstWriteOf cfgLogsWebhook serverNoChannels freshIds] ∧
    (run cfgLogsWebhook serverNoChannels freshIds).output
      = firstWriteOf cfgLogsWebhook serverNoChannels freshIds :=
  claim_C10_missing_webhook_channel cfgLogsWebhook serverNoChannels freshIds
    ⟨("logs", 7), by decide, by decide⟩

/-- C8: in a run with no uncaught error, the output file is written exactly
twice: first the checkpoint holding only the roles, channels and categories
sections, then the full content which extends the checkpoint with the
webhooks and emoji sections and fully overwrites it; the checkpoint is a
prefix of the final content, which is the run's output. -/
theorem claim_C8_two_writes (cfg : BotConfig) (S : ServerState) (fr : Fresh)
    (h : (run cfg S fr).err = none) :
    ∃ w1 w2, (run cfg S fr).writes = [w1, w2] ∧
      (∃ t, w2 = w1 ++ t) ∧
      w2 = (run cfg S fr).output ∧
      w1 = "#Roles\n" ++ String.join (renderLines "roles_" ((run cfg S fr).rolePairs))
        ++ "\n#Channels\n"
        ++ String.join (renderLines "channels_" ((run cfg S fr).channelPairs))
        ++ "\n#Categories\n"
        ++ String.join (renderLines "categories_" ((run cfg S fr).categoryPairs)) ∧
      w2 = w1 ++ ("\n#Webhooks\n" ++ String.join ((run cfg S fr).webhookLines)
        ++ emojiSection) := by
  cases hwl : webhookLoop S (discoveredChannels S) fr cfg.webhooks with
  | err msg cs =>
    exfalso
    unfold run at h
    rw [hwl] at h
    simp at h
  | ok wl wc =>
    refine ⟨firstWriteOf cfg S fr,
      firstWriteOf cfg S fr ++ "\n#Webhooks\n" ++ String.join wl ++ emojiSection,
      ?_, ⟨"\n#Webhooks\n" ++ String.join wl ++ emojiSection, by
        simp [String.append_assoc]⟩, ?_, ?_, ?_⟩ <;>
      unfold run <;> rw [hwl] <;>
      simp [firstWriteOf, String.append_assoc]

/-- C8 witness: the concrete populated run errors nowhere, so the theorem
yields its two writes. -/
theorem claim_C8_witness :
    ∃ w1 w2, (run cfgHelpOnly serverWrongTypeHelp freshIds).writes = [w1, w2] ∧
      (∃ t, w2 = w1 ++ t) := by
  obtain ⟨w1, w2, hw, hpre, -, -, -⟩ :=
    claim_C8_two_writes cfgHelpOnly serverWrongTypeHelp freshIds (by decide)
  exact ⟨w1, w2, hw, hpre⟩

/-- An expected name missing from the discovered dict contributes no pair and
one warning, and the loop keeps processing the names after it. -/
theorem emitLoop_middle_missing (d : Dict) (pre post : List String) (name : String)
    (h : d.lookup name = none) :
    emitLoop (pre ++ name :: post) d
      = ((emitLoop pre d).1 ++ (emitLoop post d).1,
         (emitLoop pre d).2 ++ name :: (emitLoop post d).2) := by
  induction pre with
  | nil => simp [emitLoop, h]
  | cons n rest ih =>
    simp only [List.cons_append, emitLoop, ih]
    cases d.lookup n with
    | none => simp [ih]
    | some v => by_cases hv : v = "" <;> simp [hv, ih]

/-- C6: for every expected role, channel or category name absent from the
corresponding discovered map, the driver records a warning for it, omits its
output pair, and still processes every other expected name; such an absence
never terminates the run. -/
theorem claim_C6_missing_expected_names (cfg : BotConfig) (S : ServerState)
    (fr : Fresh) (pre post : List String) (name : String) :
    (cfg.roleFields = pre ++ name :: post →
      (get_all_roles S).lookup name = none →
        (run cfg S fr).rolePairs
          = (emitLoop pre (get_all_roles S)).1 ++ (emitLoop post (get_all_roles S)).1 ∧
        (run cfg S fr).roleWarnings
          = (emitLoop pre (get_all_roles S)).2
              ++ name :: (emitLoop post (get_all_roles S)).2) ∧
    (cfg.channelFields = pre ++ name :: post →
      (discoveredChannels S).lookup name = none →
        (run cfg S fr).channelPairs
          = ((emitLoop pre (discoveredChannels S)).1
              ++ (emitLoop post (discoveredChannels S)).1)
              ++ [(PYTHON_HELP_NAME, (helpResolution S fr).1)] ∧
        (run cfg S fr).channelWarnings
          = (emitLoop pre (discoveredChannels S)).2
              ++ name :: (emitLoop post (discoveredChannels S)).2) ∧
    (cfg.categoryFields = pre ++ name :: post →
      (discoveredCategories S).lookup name = none →
        (run cfg S fr).categoryPairs
          = (emitLoop pre (discoveredCategories S)).1
              ++ (emitLoop post (discoveredCategories S)).1 ∧
        (run cfg S fr).categoryWarnings
          = (emitLoop pre (discoveredCategories S)).2
              ++ name :: (emitLoop post (discoveredCategories S)).2) := by
  obtain ⟨hr, hrw, hc, hcw, hg, hgw, -⟩ := run_sections cfg S fr
  refine ⟨fun hf hl => ⟨?_, ?_⟩, fun hf hl => ⟨?_, ?_⟩, fun hf hl => ⟨?_, ?_⟩⟩
  · rw [hr]; unfold rolePairsOf
    rw [hf, emitLoop_middle_missing _ _ _ _ hl]
  · rw [hrw]; unfold roleWarningsOf
    rw [hf, emitLoop_middle_missing _ _ _ _ hl]
  · rw [hc]; unfold channelPairsOf
    rw [hf, emitLoop_middle_missing _ _ _ _ hl]
  · rw [hcw]; unfold channelWarningsOf
    rw [hf, emitLoop_middle_missing _ _ _ _ hl]
  · rw [hg]; unfold categoryPairsOf
    rw [hf, emitLoop_middle_missing _ _ _ _ hl]
  · rw [hgw]; unfold categoryWarningsOf
    rw [hf, emitLoop_middle_missing _ _ _ _ hl]

/-- A schema expecting roles `a` and `b` on a server that only has `b`. -/
def cfgTwoRoles : BotConfig := ⟨["a", "b"], [], [], []⟩

/-- A server holding only the role `b`. -/
def serverOneRole : ServerState :=
  { roles := [⟨"b", "1"⟩], channels := [], features := ["COMMUNITY"],
    channelTypeOf := fun _ => 0, webhookGetStatus := fun _ => 200 }

/-- C6 witness: the missing role `a` is warned about and omitted while the
present role `b` is still emitted. -/
theorem claim_C6_witness :
    (run cfgTwoRoles serverOneRole freshIds).rolePairs = [("b", "1")] ∧
    (run cfgTwoRoles serverOneRole freshIds).roleWarnings = ["a"] := by
  obtain ⟨h1, h2⟩ :=
    (claim_C6_missing_expected_names cfgTwoRoles serverOneRole freshIds
      [] ["b"] "a").1 rfl (by decide)
  constructor
  · rw [h1]; decide
  · rw [h2]; decide

/-- When every expected webhook's channel was discovered (with an id `int`
accepts), the webhook loop succeeds; a live prior id is kept, a dead one is
replaced by a freshly created webhook under the discovered channel id. -/
theorem webhookLoop_channels_present (S : ServerState) (m : Dict) (fr : Fresh)
    (ws : List (String × Nat))
    (h : ∀ p ∈ ws, (m.lookup p.1).isSome = true
          ∧ (pyInt? ((m.lookup p.1).getD "")).isSome = true) :
    webhookLoop S m fr ws
      = WebhookRes.ok
          (ws.flatMap (fun p =>
            ["webhooks_" ++ p.1 ++ "__id="
                ++ (if webhook_exists S p.2 then toString p.2 else fr.webhookId p.1)
                ++ "\n",
             "webhooks_" ++ p.1 ++ "__channel=" ++ (m.lookup p.1).getD "" ++ "\n"]))
          (ws.flatMap (fun p =>
            if webhook_exists S p.2 then [ApiCall.getWebhook p.2]
            else [ApiCall.getWebhook p.2,
                  ApiCall.createWebhook p.1 ((pyInt? ((m.lookup p.1).getD "")).getD 0)])) := by
  induction ws with
  | nil => rfl
  | cons q rest ih =>
    obtain ⟨name, priorId⟩ := q
    obtain ⟨hsome, hint⟩ := h _ (List.mem_cons_self _ _)
    obtain ⟨chan, hl⟩ := Option.isSome_iff_exists.mp hsome
    rw [hl, Option.getD_some] at hint
    have hrest := ih (fun p hp => h p (List.mem_cons_of_mem _ hp))
    by_cases hex : webhook_exists S priorId = true
    · simp [webhookLoop, hex, hl, hrest]
    · have hex' : webhook_exists S priorId = false := by simpa using hex
      obtain ⟨ci, hti⟩ := Option.isSome_iff_exists.mp hint
      simp [webhookLoop, hex', hl, hti, hrest]

/-- The webhook-creation calls of the loop's trace are exactly those for the
webhooks whose existence check failed. -/
theorem filter_createWebhook_flatMap (S : ServerState) (m : Dict)
    (ws : List (String × Nat)) :
    (ws.flatMap (fun p =>
        if webhook_exists S p.2 then [ApiCall.getWebhook p.2]
        else [ApiCall.getWebhook p.2,
              ApiCall.createWebhook p.1 ((pyInt? ((m.lookup p.1).getD "")).getD 0)])).filter
        isCreateWebhook
      = (ws.filter (fun p => !(webhook_exists S p.2))).map
          (fun p => ApiCall.createWebhook p.1
            ((pyInt? ((m.lookup p.1).getD "")).getD 0)) := by
  induction ws with
  | nil => rfl
  | cons q rest ih =>
    by_cases hex : webhook_exists S q.2 = true <;>
      simp [List.flatMap_cons, List.filter_append, List.filter_cons, hex,
        isCreateWebhook, ih]

/-- No call made before the webhook loop creates a webhook. -/
theorem baseCalls_no_webhook_creation (S : ServerState) (fr : Fresh) :
    (baseCallsOf S fr).filter isCreateWebhook = [] := by
  unfold baseCallsOf communityCalls helpResolution resolveHelpChannel
  cases (discoveredChannels S).lookup PYTHON_HELP_NAME with
  | none =>
    by_cases hc : is_community_server S = true <;>
      simp [hc, List.filter_append, List.filter_cons, isCreateWebhook]
  | some cid =>
    by_cases hf : S.channelTypeOf cid = GUILD_FORUM_TYPE <;>
      by_cases hc : is_community_server S = true <;>
        simp [hc, hf, List.filter_append, List.filter_cons, isCreateWebhook]

/-- C7: assuming every expected webhook's name was discovered as a channel,
the run's webhook section emits, for each expected webhook, a
`webhooks_<name>__id` line carrying the prior id when the existence check
succeeds and the freshly created id when it fails, always followed by a
`webhooks_<name>__channel` line with the discovered channel id; and exactly
the failed checks trigger a webhook-creation call under that discovered
channel id. -/
theorem claim_C7_webhook_reconciliation (cfg : BotConfig) (S : ServerState)
    (fr : Fresh)
    (h : ∀ p ∈ cfg.webhooks, ((discoveredChannels S).lookup p.1).isSome = true
          ∧ (pyInt? (((discoveredChannels S).lookup p.1).getD "")).isSome = true) :
    (run cfg S fr).err = none ∧
    (run cfg S fr).webhookLines
      = cfg.webhooks.flatMap (fun p =>
          ["webhooks_" ++ p.1 ++ "__id="
              ++ (if webhook_exists S p.2 then toString p.2 else fr.webhookId p.1)
              ++ "\n",
           "webhooks_" ++ p.1 ++ "__channel="
              ++ ((discoveredChannels S).lookup p.1).getD "" ++ "\n"]) ∧
    ((run cfg S fr).calls).filter isCreateWebhook
      = (cfg.webhooks.filter (fun p => !(webhook_exists S p.2))).map
          (fun p => ApiCall.createWebhook p.1
            ((pyInt? (((discoveredChannels S).lookup p.1).getD "")).getD 0)) := by
  have hwl := webhookLoop_channels_present S (discoveredChannels S) fr cfg.webhooks h
  refine ⟨?_, ?_, ?_⟩
  · unfold run; rw [hwl]
  · unfold run; rw [hwl]
  · rw [(run_sections cfg S fr).2.2.2.2.2.2, List.filter_append,
      baseCalls_no_webhook_creation, List.nil_append, hwl]
    exact filter_createWebhook_flatMap S (discoveredChannels S) cfg.webhooks

/-- A server where the `logs` channel exists but the webhook GET answers 404:
the prior webhook id is dead. -/
def serverDeadWebhook : ServerState :=
  { roles := [], channels := [⟨"logs", 0, "200"⟩], features := ["COMMUNITY"],
    channelTypeOf := fun _ => 0, webhookGetStatus := fun _ => 404 }

/-- C7 witness: the dead prior id is replaced by the fresh id `77` and the
webhook is created under the discovered channel id `200`. -/
theorem claim_C7_witness :
    (run cfgLogsWebhook serverDeadWebhook freshIds).webhookLines
      = ["webhooks_logs__id=77\n", "webhooks_logs__channel=200\n"] ∧
    ((run cfgLogsWebhook serverDeadWebhook freshIds).calls).filter isCreateWebhook
      = [ApiCall.createWebhook "logs" 200] := by
  obtain ⟨-, h2, h3⟩ :=
    claim_C7_webhook_reconciliation cfgLogsWebhook serverDeadWebhook freshIds
      (by decide)
  constructor
  · rw [h2]; decide
  · rw [h3]; decide

/-- A server that already contains everything the expected schema names:
the community feature is on, the python-help channel is discovered and is
already a forum channel, every expected role, channel and category is
discovered with a non-empty id, and every prior webhook id is alive with its
channel discovered. -/
def Populated (cfg : BotConfig) (S : ServerState) : Prop :=
  is_community_server S = true ∧
  ((discoveredChannels S).lookup PYTHON_HELP_NAME).isSome = true ∧
  S.channelTypeOf (((discoveredChannels S).lookup PYTHON_HELP_NAME).getD "")
      = GUILD_FORUM_TYPE ∧
  (∀ n ∈ cfg.roleFields, ((get_all_roles S).lookup n).getD "" ≠ "") ∧
  (∀ n ∈ cfg.channelFields, (((discoveredChannels S).lookup n).getD "") ≠ "") ∧
  (∀ n ∈ cfg.categoryFields, (((discoveredCategories S).lookup n).getD "") ≠ "") ∧
  (∀ p ∈ cfg.webhooks, webhook_exists S p.2 = true
      ∧ ((discoveredChannels S).lookup p.1).isSome = true)

instance (cfg : BotConfig) (S : ServerState) : Decidable (Populated cfg S) := by
  unfold Populated
  infer_instance

/-- When every prior webhook id is alive and its channel is discovered, the
webhook loop succeeds, emits the prior ids unchanged, and only GETs. -/
theorem webhookLoop_all_exist (S : ServerState) (m : Dict) (fr : Fresh)
    (ws : List (String × Nat))
    (h : ∀ p ∈ ws, webhook_exists S p.2 = true ∧ (m.lookup p.1).isSome = true) :
    webhookLoop S m fr ws
      = WebhookRes.ok
          (ws.flatMap (fun p =>
            ["webhooks_" ++ p.1 ++ "__id=" ++ toString p.2 ++ "\n",
             "webhooks_" ++ p.1 ++ "__channel=" ++ (m.lookup p.1).getD "" ++ "\n"]))
          (ws.map (fun p => ApiCall.getWebhook p.2)) := by
  induction ws with
  | nil => rfl
  | cons q rest ih =>
    obtain ⟨name, priorId⟩ := q
    obtain ⟨hex, hsome⟩ := h _ (List.mem_cons_self _ _)
    obtain ⟨chan, hl⟩ := Option.isSome_iff_exists.mp hsome
    have hrest := ih (fun p hp => h p (List.mem_cons_of_mem _ hp))
    simp [webhookLoop, hex, hl, hrest]

/-- C3: against an already-upgraded, fully populated server the driver makes
no mutating call at all — no guild patch, no channel delete, no forum-channel
creation and no webhook creation — so the server is left unchanged, every
webhook line carries the unchanged prior id, and the run's outcome (in
particular the output file with its role and category lines) does not depend
on the fresh ids the API would hand out: a second run over the same state
reproduces the file identically. -/
theorem claim_C3_idempotence (cfg : BotConfig) (S : ServerState) (fr : Fresh)
    (h : Populated cfg S) :
    ((run cfg S fr).calls).filter isMutatingCall = [] ∧
    (run cfg S fr).err = none ∧
    (run cfg S fr).webhookLines
      = cfg.webhooks.flatMap (fun p =>
          ["webhooks_" ++ p.1 ++ "__id=" ++ toString p.2 ++ "\n",
           "webhooks_" ++ p.1 ++ "__channel="
              ++ ((discoveredChannels S).lookup p.1).getD "" ++ "\n"]) ∧
    (∀ fr' : Fresh, run cfg S fr' = run cfg S fr) := by
  obtain ⟨hcomm, hsome, hforum, -, -, -, hw⟩ := h
  obtain ⟨cid, hl⟩ := Option.isSome_iff_exists.mp hsome
  rw [hl, Option.getD_some] at hforum
  have hhelp : ∀ fr'' : Fresh,
      helpResolution S fr'' = (cid, [ApiCall.getChannel cid]) := by
    intro fr''
    simp [helpResolution, resolveHelpChannel, hl, hforum]
  have hwl : ∀ fr'' : Fresh,
      webhookLoop S (discoveredChannels S) fr'' cfg.webhooks
        = WebhookRes.ok
            (cfg.webhooks.flatMap (fun p =>
              ["webhooks_" ++ p.1 ++ "__id=" ++ toString p.2 ++ "\n",
               "webhooks_" ++ p.1 ++ "__channel="
                  ++ ((discoveredChannels S).lookup p.1).getD "" ++ "\n"]))
            (cfg.webhooks.map (fun p => ApiCall.getWebhook p.2)) :=
    fun fr'' => webhookLoop_all_exist S (discoveredChannels S) fr'' cfg.webhooks hw
  refine ⟨?_, ?_, ?_, ?_⟩
  · rw [(run_sections cfg S fr).2.2.2.2.2.2, List.filter_append]
    have h1 : (baseCallsOf S fr).filter isMutatingCall = [] := by
      unfold baseCallsOf communityCalls
      simp [hcomm, hhelp fr, List.filter_append, List.filter_cons, isMutatingCall]
    have h2 : ((webhookLoop S (discoveredChannels S) fr cfg.webhooks).callList).filter
        isMutatingCall = [] := by
      rw [hwl fr]
      simp only [WebhookRes.callList]
      rw [List.filter_eq_nil_iff]
      intro call hcall
      obtain ⟨p, hp, rfl⟩ := List.mem_map.mp hcall
      simp [isMutatingCall]
    rw [h1, h2]
    rfl
  · unfold run
    rw [hwl fr]
  · unfold run
    rw [hwl fr]
  · intro fr'
    unfold run
    rw [hwl fr', hwl fr]
    simp only [channelPairsOf, firstWriteOf, baseCallsOf, hhelp]

/-- A fully populated concrete server. -/
def serverPopulated : ServerState :=
  { roles := [⟨"Admins", "555"⟩],
    channels := [⟨"Python Help", 15, "100"⟩, ⟨"Misc", 4, "300"⟩,
      ⟨"logs", 0, "200"⟩],
    features := ["COMMUNITY"], channelTypeOf := fun _ => 15,
    webhookGetStatus := fun _ => 200 }

/-- The expected schema matching `serverPopulated`. -/
def cfgFull : BotConfig :=
  ⟨["admins"], ["python_help", "logs"], ["misc"], [("logs", 7)]⟩

/-- C3 witness: the populated concrete run issues no mutating call, errors
nowhere, and is reproduced identically with different fresh ids. -/
theorem claim_C3_witness :
    ((run cfgFull serverPopulated freshIds).calls).filter isMutatingCall = [] ∧
    (run cfgFull serverPopulated freshIds).err = none ∧
    run cfgFull serverPopulated ⟨"111", fun _ => "222"⟩
      = run cfgFull serverPopulated freshIds := by
  obtain ⟨h1, h2, -, h4⟩ :=
    claim_C3_idempotence cfgFull serverPopulated freshIds (by decide)
  exact ⟨h1, h2, h4 ⟨"111", fun _ => "222"⟩⟩

/-- Keys absent from the expected-field list never show up among the emitted
pairs. -/
theorem emitLoop_countP_not_mem (d : Dict) (fields : List String) (name : String)
    (h : name ∉ fields) :
    ((emitLoop fields d).1).countP (fun q => q.1 == name) = 0 := by
  induction fields with
  | nil => rfl
  | cons n rest ih =>
    have hn : n ≠ name := by
      rintro rfl
      exact h (List.mem_cons_self _ _)
    have hrest : name ∉ rest := fun hm => h (List.mem_cons_of_mem _ hm)
    simp only [emitLoop]
    cases d.lookup n with
    | none => exact ih hrest
    | some v =>
      by_cases hv : v = "" <;>
        simp [hv, List.countP_cons, ih hrest, hn]

/-- A present expected name with a non-falsy id is emitted exactly once by a
duplicate-free loop, with its discovered id. -/
theorem emitLoop_countP_present (d : Dict) (fields : List String) (name v : String)
    (hnd : fields.Nodup) (hmem : name ∈ fields)
    (hl : d.lookup name = some v) (hv : v ≠ "") :
    ((emitLoop fields d).1).countP (fun q => q.1 == name) = 1 ∧
    (name, v) ∈ (emitLoop fields d).1 := by
  induction fields with
  | nil => cases hmem
  | cons n rest ih =>
    rcases List.mem_cons.mp hmem with rfl | hmem'
    · have hni : name ∉ rest := (List.nodup_cons.mp hnd).1
      simp only [emitLoop, hl]
      rw [if_neg hv]
      refine ⟨?_, List.mem_cons_self _ _⟩
      simp [List.countP_cons, emitLoop_countP_not_mem d rest name hni]
    · have hn : n ≠ name := by
        rintro rfl
        exact (List.nodup_cons.mp hnd).1 hmem'
      obtain ⟨ih1, ih2⟩ := ih (List.nodup_cons.mp hnd).2 hmem'
      cases hlk : d.lookup n with
      | none =>
        simp only [emitLoop, hlk]
        exact ⟨ih1, ih2⟩
      | some w =>
        by_cases hw : w = ""
        · subst hw
          simp only [emitLoop, hlk, if_true]
          exact ⟨ih1, ih2⟩
        · simp only [emitLoop, hlk]
          rw [if_neg hw]
          refine ⟨?_, List.mem_cons_of_mem _ ih2⟩
          simp [List.countP_cons, ih1, hn]

/-- C9: whenever the python-help name is discovered as a channel (with a
non-falsy id) and expected, the channels section carries its key twice:
once from the expected-channel loop with the originally discovered id — even
if that very channel is deleted later in the run — and once appended at the
end with the resolved help-channel id. -/
theorem claim_C9_duplicate_help_key (cfg : BotConfig) (S : ServerState)
    (fr : Fresh) (v : String)
    (hmem : PYTHON_HELP_NAME ∈ cfg.channelFields)
    (hnd : cfg.channelFields.Nodup)
    (hl : (discoveredChannels S).lookup PYTHON_HELP_NAME = some v)
    (hv : v ≠ "") :
    ((run cfg S fr).channelPairs).countP (fun q => q.1 == PYTHON_HELP_NAME) = 2 ∧
    (PYTHON_HELP_NAME, v) ∈ (run cfg S fr).channelPairs ∧
    ((run cfg S fr).channelPairs).getLast?
      = some (PYTHON_HELP_NAME, (helpResolution S fr).1) := by
  obtain ⟨h1, h2⟩ :=
    emitLoop_countP_present (discoveredChannels S) cfg.channelFields
      PYTHON_HELP_NAME v hnd hmem hl hv
  rw [(run_sections cfg S fr).2.2.1]
  unfold channelPairsOf
  refine ⟨?_, List.mem_append_left _ h2, List.getLast?_concat _⟩
  rw [List.countP_append, h1]
  simp

/-- C9 witness: on the wrong-type server the key `python_help` appears twice:
once with the originally discovered id `42` of the deleted channel and once,
last, with the id `99` of the forum channel created to replace it. -/
theorem claim_C9_witness :
    ((run cfgHelpOnly serverWrongTypeHelp freshIds).channelPairs).countP
        (fun q => q.1 == PYTHON_HELP_NAME) = 2 ∧
    (PYTHON_HELP_NAME, "42") ∈ (run cfgHelpOnly serverWrongTypeHelp freshIds).channelPairs ∧
    ((run cfgHelpOnly serverWrongTypeHelp freshIds).channelPairs).getLast?
      = some (PYTHON_HELP_NAME, "99") := by
  obtain ⟨h1, h2, h3⟩ :=
    claim_C9_duplicate_help_key cfgHelpOnly serverWrongTypeHelp freshIds "42"
      (by decide) (by decide) (by decide) (by decide)
  refine ⟨h1, h2, ?_⟩
  rw [h3]
  decide

/-- C5: the normalization used by `get_all_roles` and
`get_all_channels_and_categories` maps every space and every hyphen to an
underscore and lowercases every other character; in particular
"Dev Environment" becomes `dev_environment` and "Off Topic-1" becomes
`off_topic_1` (before the off-topic pattern rewriting applies). -/
theorem claim_C5_normalization :
    (∀ l : List Char,
        normalizeChars l
          = l.map (fun c => if c = ' ' ∨ c = '-' then '_' else c.toLower)) ∧
    normalizeName "Dev Environment" = "dev_environment" ∧
    normalizeName "Off Topic-1" = "off_topic_1" :=
  ⟨normalizeChars_eq_map, by decide, by decide⟩

/-- C4: in `get_all_channels_and_categories`, the dictionaries are built from
the per-channel assigned names in listing order, and every listed channel
whose normalized name matches the off-topic pattern `ot<digit>_<suffix>` is
assigned the output name `off_topic_<k>`, where `k` counts the matching
channels strictly before it in listing order (starting at 0). -/
theorem claim_C4_off_topic_renumbering :
    (∀ S : ServerState,
        get_all_channels_and_categories S
          = buildDicts ((assignedNames S.channels 0).zip S.channels) [] []) ∧
    (∀ (chs : List RawChannel) (i : Nat) (ch : RawChannel),
      chs.get? i = some ch →
      isOffTopicName (normalizeName ch.name) = true →
        (assignedNames chs 0).get? i
          = some ("off_topic_" ++ toString
              ((chs.take i).countP
                (fun c => isOffTopicName (normalizeName c.name))))) := by
  constructor
  · intro S
    exact channelsLoop_eq_buildDicts S.channels 0 [] []
  · intro chs i ch hget hot
    simpa using assignedNames_off_topic chs 0 i ch hget hot

/-- C4 witness: on a concrete listing the second and third channels match the
off-topic pattern and are renamed `off_topic_0` and `off_topic_1` in order. -/
theorem claim_C4_witness :
    (assignedNames
        [⟨"General", 0, "1"⟩, ⟨"ot3_memes", 0, "2"⟩, ⟨"ot5_fun", 0, "3"⟩] 0).get? 2
      = some "off_topic_1" := by
  have h := claim_C4_off_topic_renumbering.2
    [⟨"General", 0, "1"⟩, ⟨"ot3_memes", 0, "2"⟩, ⟨"ot5_fun", 0, "3"⟩]
    2 ⟨"ot5_fun", 0, "3"⟩ (by decide) (by decide)
  rw [h]
  decide

end Botstrap
